import Mathlib

/-!
# Verification of the FreeRCT RCD resource-container decoder

Shallow embedding of `src/sprite_store.cpp` (FreeRCT): the TEXT block decoder,
the sprite/text cross-reference resolution, the per-tag block loaders
(SURF/TSEL/PATH/PDEC/TCOR/FUND/PLAT/SUPP/BDIR/ANIM) and the top-level block
dispatch loop of `SpriteManager::Load`.

A stream is a `List Nat` of bytes (each read truncates with `% 256`, which is
the identity on real file bytes).  Loops of the C++ code become structurally
recursive Lean functions over an explicit iteration counter ("fuel"); the fuel
supplied at every call site dominates the number of iterations the C++ loop can
make (each iteration strictly decreases a quantity bounded by the fuel), so the
fuel-exhaustion branches are unreachable and the Lean functions compute the
same results as the C++ loops.

Primitive stream access (`RcdFileReader::GetUInt8/GetUInt16/GetUInt32/GetBlob/
SkipBytes`, `rcdfile.cpp`) is not part of the excerpt; following the spec
(§4.1) these are fixed-width little-endian reads that either fully succeed or
fail, with reading past end-of-stream a failure.
-/

namespace FreeRCT

/-- Modelled from the spec: `RcdFileReader::GetUInt8` (rcdfile.cpp is not under
src/).  Reads one byte; fails at end of stream. -/
def getU8 : List Nat → Option (Nat × List Nat)
  | [] => none
  | b :: r => some (b % 256, r)

/-- Modelled from the spec: `RcdFileReader::GetUInt16` — two bytes,
little-endian; fails at end of stream. -/
def getU16 : List Nat → Option (Nat × List Nat)
  | b0 :: b1 :: r => some (b0 % 256 + 256 * (b1 % 256), r)
  | _ => none

/-- Modelled from the spec: `RcdFileReader::GetUInt32` — four bytes,
little-endian; fails at end of stream. -/
def getU32 : List Nat → Option (Nat × List Nat)
  | b0 :: b1 :: b2 :: b3 :: r =>
      some (b0 % 256 + 256 * (b1 % 256) + 65536 * (b2 % 256) + 16777216 * (b3 % 256), r)
  | _ => none

/-- Modelled from the spec: `RcdFileReader::GetInt16` — two bytes
little-endian, interpreted as a two's-complement signed 16-bit value. -/
def getI16 (s : List Nat) : Option (Int × List Nat) :=
  match getU16 s with
  | none => none
  | some (v, r) => some (if v < 32768 then (v : Int) else (v : Int) - 65536, r)

/-- Modelled from the spec: `RcdFileReader::GetBlob` — reads exactly `n` bytes
or fails (§4.1: "reads exactly `n` bytes or fails"). -/
def getBlob (n : Nat) (s : List Nat) : Option (List Nat × List Nat) :=
  if n ≤ s.length then some (s.take n, s.drop n) else none

/-- Modelled from the spec: `RcdFileReader::SkipBytes` — discards exactly `n`
bytes, failing at a short stream ("Error skipping unknown block." in the
dispatcher). -/
def skipBytes (n : Nat) (s : List Nat) : Option (List Nat) :=
  if n ≤ s.length then some (s.drop n) else none

/-- The little-endian 16-bit value stored at byte offset `i` of a stream
(specification-side accessor used to state claims about field positions). -/
def u16At (s : List Nat) (i : Nat) : Option Nat :=
  match s.drop i with
  | b0 :: b1 :: _ => some (b0 % 256 + 256 * (b1 % 256))
  | _ => none

/-- Little-endian encoding of a 32-bit value (used to build concrete input
streams in witnesses and counterexamples). -/
def u32le (n : Nat) : List Nat :=
  [n % 256, n / 256 % 256, n / 65536 % 256, n / 16777216 % 256]

/-! ## UTF-8 validation (`ReadUtf8Text`, sprite_store.cpp lines 77–97) -/

/-- Whether a byte is a UTF-8 continuation byte (`0x80..0xBF`). -/
def isCont (b : Nat) : Bool := 128 ≤ b % 256 && b % 256 < 192

/-- Modelled from the spec: `DecodeUtf8Char` (string_func.cpp is not under
src/).  Decodes one code point from the front of the byte list according to
standard UTF-8 well-formedness (RFC 3629: correct continuation bytes, no
overlong forms, no surrogates, limit U+10FFFF); returns the code point and the
number of bytes consumed, or `none` for a malformed or truncated sequence. -/
def decodeUtf8Char : List Nat → Option (Nat × Nat)
  | [] => none
  | b :: rest =>
    let b0 := b % 256
    if b0 < 128 then some (b0, 1)
    else if b0 < 194 then none  -- stray continuation byte or overlong 2-byte lead
    else if b0 < 224 then
      match rest with
      | c1 :: _ =>
        if isCont c1 then some ((b0 - 192) * 64 + c1 % 64, 2) else none
      | _ => none
    else if b0 < 240 then
      match rest with
      | c1 :: c2 :: _ =>
        if isCont c1 && isCont c2
            && !(b0 = 224 && c1 % 256 < 160)     -- no overlong 3-byte forms
            && !(b0 = 237 && 160 ≤ c1 % 256) then -- no surrogates
          some ((b0 - 224) * 4096 + (c1 % 64) * 64 + c2 % 64, 3)
        else none
      | _ => none
    else if b0 < 245 then
      match rest with
      | c1 :: c2 :: c3 :: _ =>
        if isCont c1 && isCont c2 && isCont c3
            && !(b0 = 240 && c1 % 256 < 144)      -- no overlong 4-byte forms
            && !(b0 = 244 && 144 ≤ c1 % 256) then -- limit U+10FFFF
          some ((b0 - 240) * 262144 + (c1 % 64) * 4096 + (c2 % 64) * 64 + c3 % 64, 4)
        else none
      | _ => none
    else none

/-- The validation loop of `ReadUtf8Text` (lines 85–93): decode code points
until a NUL, requiring the NUL to use up the last byte; the fuel dominates the
iteration count (each step consumes at least one byte, and the loop is started
with fuel = length of the list plus one). -/
def validUtf8NulAux : Nat → List Nat → Bool
  | 0, _ => false
  | fuel + 1, l =>
    match decodeUtf8Char l with
    | none => false                      -- sz == 0 in the C++ loop
    | some (cp, sz) =>
      if l.length < sz then false        -- sz > real_size
      else if cp = 0 then decide (l.length = sz)  -- break, then real_size != 0 check
      else validUtf8NulAux fuel (l.drop sz)

/-- The byte list is well-formed UTF-8 consisting of a sequence of code points
whose last one is NUL, exactly filling the list. -/
def validUtf8Nul (l : List Nat) : Bool := validUtf8NulAux (l.length + 1) l

/-- `ReadUtf8Text` (sprite_store.cpp lines 77–97).  Reads `expectedLength`
bytes into the buffer (modelled by returning the bytes read) after checking the
buffer capacity, and validates them as NUL-terminated UTF-8.  Returns the new
`used_size`, the bytes read, and the remaining stream.  The ignored return
value of `GetBlob` in the C++ is modelled as a hard failure, per the spec's
read contract (§4.1). -/
def ReadUtf8Text (expectedLength : Nat) (bufLength usedSize : Nat) (s : List Nat) :
    Option (Nat × List Nat × List Nat) :=
  if bufLength < usedSize + expectedLength then none
  else
    match getBlob expectedLength s with
    | none => none
    | some (blob, rest) =>
      if validUtf8Nul blob then some (usedSize + expectedLength, blob, rest) else none

/-! ## The TEXT block decoder (`TextData::Load`, sprite_store.cpp lines 104–181)

`GetLanguageIndex` (language.cpp) is not part of the excerpt; the decoder is
parameterised over a language-lookup function `li` mapping a NUL-terminated
language-name byte string to `some index` for a known language and `none` for
an unknown one (the C++ returns a non-negative index or a negative value). -/

/-- Maximal number of strings in a TEXT data block (line 34). -/
def MAX_NUM_TEXT_STRINGS : Nat := 512

/-- One entry of a decoded string table: the name bytes and the per-language
text bytes (`TextString`; absent languages are `none`). -/
structure TextString where
  name : List Nat
  langs : Nat → Option (List Nat)

/-- A decoded TEXT block: its list of strings (`TextData`). -/
def TextDataM := List TextString

/-- The inner translations loop of `TextData::Load` (lines 131–161): one
iteration per language sub-record of the current string record.  Arguments
mirror the C++ locals: `trs` is `trs_length`, `len` is `length`, `used` is
`used_size`, `langs` the `languages` array of the string being built, `s` the
stream.  Returns the updated `(length, used_size, languages, stream)`.

The C++ counters are machine integers; on every path on which the checks of
the code pass the subtractions below never underflow (`tr ≤ trs ≤ len` is an
invariant of the loop), so `Nat` subtraction agrees with the C++ arithmetic.
Each iteration decreases `trs` by `tr ≥ 4`, so fuel `trs + 1` (the call site's
choice) is never exhausted. -/
def trsLoop (li : List Nat → Option Nat) :
    Nat → Nat → Nat → Nat → (Nat → Option (List Nat)) → List Nat →
    Option (Nat × Nat × (Nat → Option (List Nat)) × List Nat)
  | 0, _, _, _, _, _ => none
  | fuel + 1, trs, len, used, langs, s =>
    if trs = 0 then some (len, used, langs, s)   -- while (trs_length > 0) exits
    else
      if len < 3 then none
      else
        match getU16 s with
        | none => none
        | some (tr, s1) =>
          match getU8 s1 with
          | none => none
          | some (lang, s2) =>
            if trs < tr then none                       -- tr_length > trs_length
            else if tr ≤ lang + 2 + 1 then none         -- lang_length + 2 + 1 >= tr_length
            else
              -- text_length = tr_length - (lang_length + 2 + 1)
              match ReadUtf8Text lang 1000 0 s2 with     -- language name, lang_buffer[1000]
              | none => none
              | some (_, langName, s3) =>
                match li langName with
                | some idx =>
                  -- known language: text is stored behind buffer + used_size
                  match ReadUtf8Text (tr - (lang + 2 + 1)) 65536 used s3 with
                  | none => none
                  | some (used', text, s4) =>
                    trsLoop li fuel (trs - tr) (len - 3 - lang - (tr - (lang + 2 + 1)))
                      used' (fun j => if j = idx then some text else langs j) s4
                | none =>
                  -- illegal language: read into the dummy lang_buffer
                  match ReadUtf8Text (tr - (lang + 2 + 1)) 1000 0 s3 with
                  | none => none
                  | some (_, _, s4) =>
                    trsLoop li fuel (trs - tr) (len - 3 - lang - (tr - (lang + 2 + 1)))
                      used langs s4

/-- The outer string-records loop of `TextData::Load` (lines 113–164): one
iteration per string record.  `acc` collects the decoded `TextString`s
(`used_strings = acc.length`).  Each iteration decreases `len` by
`str_length ≥ 4`, so fuel `len + 1` (the call site's choice) is never
exhausted. -/
def strLoop (li : List Nat → Option Nat) :
    Nat → Nat → Nat → List TextString → List Nat →
    Option (List TextString × Nat × List Nat)
  | 0, _, _, _, _ => none
  | fuel + 1, len, used, acc, s =>
    if len = 0 then some (acc, used, s)          -- while (length > 0) exits
    else
      if MAX_NUM_TEXT_STRINGS ≤ acc.length then none  -- too many text strings
      else if len < 3 then none
      else
        match getU16 s with
        | none => none
        | some (str, s1) =>
          match getU8 s1 with
          | none => none
          | some (ident, s2) =>
            if len < str then none               -- string does not fit in the block
            else if str ≤ ident + 2 + 1 then none -- no space for translations
            else
              -- trs_length = str_length - (ident_length + 2 + 1)
              match ReadUtf8Text ident 65536 used s2 with  -- string name
              | none => none
              | some (used1, nameBytes, s3) =>
                match trsLoop li (str - (ident + 2 + 1) + 1) (str - (ident + 2 + 1))
                    (len - 3 - ident) used1 (fun _ => none) s3 with
                | none => none
                | some (len2, used2, langs, s4) =>
                  strLoop li fuel len2 used2 (acc ++ [⟨nameBytes, langs⟩]) s4

/-- `TextData::Load` (lines 104–181).  On success returns the decoded strings,
the total number of text bytes stored in the backing buffer (`used_size`), and
the remaining stream.  The final re-allocation and pointer fix-up of the C++
(lines 167–179) only changes string addresses, not contents, and is the
identity here. -/
def TextData.Load (li : List Nat → Option Nat) (version size : Nat) (s : List Nat) :
    Option (List TextString × Nat × List Nat) :=
  if version ≠ 2 then none
  else strLoop li (size + 1) size 0 [] s

/-! ### Specification-side exact-accounting checker

The spec (§4.4, §8) demands that the declared sub-record lengths of a TEXT
block account for the block's declared size exactly.  The following checker is
written from the spec's words, not from the code: it walks the declared
lengths only (no UTF-8 validation, no buffer bounds, no language lookup) and
accepts exactly when every parent's declared length is the sum of its
children's declared lengths (each child's own 3-byte length-prefix header
included) with zero slack. -/

/-- Spec-side: the language sub-records starting at `s` account exactly for
`trs` bytes; returns the stream after those bytes. -/
def specTrsAccount : Nat → Nat → List Nat → Option (List Nat)
  | 0, _, _ => none
  | fuel + 1, trs, s =>
    if trs = 0 then some s
    else
      match getU16 s with
      | none => none
      | some (tr, s1) =>
        match getU8 s1 with
        | none => none
        | some (_, s2) =>
          if trs < tr then none        -- child larger than what the parent has left
          else if tr < 3 then none     -- child's declared length must cover its header
          else
            match skipBytes (tr - 3) s2 with
            | none => none
            | some s3 => specTrsAccount fuel (trs - tr) s3

/-- Spec-side: the string records starting at `s` account exactly for `len`
bytes, each record's language sub-records accounting exactly for the record's
declared length minus its header and name. -/
def specStrAccount : Nat → Nat → List Nat → Bool
  | 0, _, _ => false
  | fuel + 1, len, s =>
    if len = 0 then true
    else
      match getU16 s with
      | none => false
      | some (str, s1) =>
        match getU8 s1 with
        | none => false
        | some (ident, s2) =>
          if len < str then false      -- record larger than what the block has left
          else if str < ident + 3 then false  -- record must cover its header and name
          else
            match skipBytes ident s2 with
            | none => false
            | some s3 =>
              match specTrsAccount (str - (ident + 3) + 1) (str - (ident + 3)) s3 with
              | none => false
              | some s4 => specStrAccount fuel (len - str) s4

/-- Spec-side: the declared sub-record lengths of the TEXT block payload at
`s` sum to the declared block size exactly, at every nesting level. -/
def specTextExactAccounting (size : Nat) (s : List Nat) : Bool :=
  specStrAccount (size + 1) size s

/-! ## Cross-reference resolution (lines 190–221)

Sprites and texts decoded from earlier blocks of the same file are registered
in per-file maps keyed by block number.  `ImageData*` handles are modelled as
`Nat`; the maps (`std::map`) as functions to `Option`. -/

/-- Per-file map from block numbers to loaded sprites (`ImageMap`). -/
def ImageMap := Nat → Option Nat

/-- Per-file map from block numbers to loaded text blocks (`TextMap`). -/
def TextMap := Nat → Option TextDataM

/-- `LoadSpriteFromFile` (lines 190–201): read a 32-bit sprite reference; 0
yields the null sprite without lookup, a registered nonzero id yields the
registered sprite, an unregistered nonzero id fails. -/
def LoadSpriteFromFile (s : List Nat) (sprites : ImageMap) :
    Option (Option Nat × List Nat) :=
  match getU32 s with
  | none => none
  | some (val, r) =>
    if val = 0 then some (none, r)
    else
      match sprites val with
      | none => none
      | some spr => some (some spr, r)

/-- `LoadTextFromFile` (lines 210–221): identical scheme for text
references. -/
def LoadTextFromFile (s : List Nat) (texts : TextMap) :
    Option (Option TextDataM × List Nat) :=
  match getU32 s with
  | none => none
  | some (val, r) =>
    if val = 0 then some (none, r)
    else
      match texts val with
      | none => none
      | some txt => some (some txt, r)

/-! ## The sprite store data model (sprite_store.h, mirrored by the loaders) -/

/-- Number of ground/surface slope sprites: the 23 rows of `_slope_rotation`
(lines 42–66). -/
def NUM_SLOPE_SPRITES : Nat := 23

/-- Number of view orientations (`VOR_NUM_ORIENT`): the 4 columns of
`_slope_rotation`. -/
def VOR_NUM_ORIENT : Nat := 4

/-- Number of tile edges (`EDGE_COUNT`): the literal 4 in `LoadPDEC`'s size
formula `2 + 7*4*4 + 2*(1+4)*4*4` (line 501). -/
def EDGE_COUNT : Nat := 4

/-- Ground types accepted by `LoadSURF` (the `GTP_*` enumeration). -/
inductive GroundType where
  | grass0 | grass1 | grass2 | grass3
  | underground | desert | cursorTest | cursorEdgeTest
deriving DecidableEq

/-- The ground-type decoding chain of `LoadSURF` (lines 251–260);
`none` is `GTP_INVALID`. -/
def decodeGroundType (gt : Nat) : Option GroundType :=
  if gt = 16 then some .grass0
  else if gt = 17 then some .grass1
  else if gt = 18 then some .grass2
  else if gt = 19 then some .grass3
  else if gt = 20 then some .underground
  else if gt = 32 then some .desert
  else if gt = 48 then some .cursorTest
  else if gt = 49 then some .cursorEdgeTest
  else none

/-- Path types accepted by `LoadPATH` (the `PAT_*` enumeration). -/
inductive PathType where
  | wood | tiled | asphalt | concrete
deriving DecidableEq

/-- The path-type switch of `LoadPATH` (lines 439–445), applied to
`type & 0x7FFF`; `none` is `PAT_INVALID`. -/
def decodePathType (t : Nat) : Option PathType :=
  if t = 4 then some .wood
  else if t = 8 then some .tiled
  else if t = 12 then some .asphalt
  else if t = 16 then some .concrete
  else none

/-- Path status (`PAS_*`). -/
inductive PathStatus where
  | unused | normalPath | queuePath
deriving DecidableEq

/-- Foundation types accepted by `LoadFUND` (the `FDT_*` enumeration). -/
inductive FoundationType where
  | ground | wood | brick
deriving DecidableEq

/-- The foundation-type chain of `LoadFUND` (lines 614–618). -/
def decodeFoundationType (tp : Nat) : Option FoundationType :=
  if tp = 16 then some .ground
  else if tp = 32 then some .wood
  else if tp = 48 then some .brick
  else none

/-- Path sprites and their status (`Path`, lines 421–425). -/
structure PathData where
  status : PathStatus
  sprites : Nat → Option Nat

/-- Platform sprites (`Platform`). -/
structure PlatformData where
  flat : Nat → Option Nat
  ramp : Nat → Option Nat
  rightRamp : Nat → Option Nat
  leftRamp : Nat → Option Nat

/-- Path decoration sprites and counts (`PathDecoration`, lines 460–490). -/
structure PathDecorationData where
  litterbin : Nat → Option Nat
  overflowBin : Nat → Option Nat
  demolishedBin : Nat → Option Nat
  lampPost : Nat → Option Nat
  demolishedLamp : Nat → Option Nat
  bench : Nat → Option Nat
  demolishedBench : Nat → Option Nat
  flatLitter : Nat → Option Nat
  rampLitter : Nat → Nat → Option Nat
  flatVomit : Nat → Option Nat
  rampVomit : Nat → Nat → Option Nat
  flatLitterCount : Nat
  flatVomitCount : Nat
  rampLitterCount : Nat → Nat
  rampVomitCount : Nat → Nat

/-- The shared per-tile-width sprite store (`SpriteStorage`); the in-place
mutations of the C++ loaders become functional updates of this record.
`animations` is the ANSP registry `(anim type, person type, handle)`. -/
structure SpriteStorage where
  surface : GroundType → Nat → Option Nat
  tileSelect : Nat → Option Nat
  tileCorners : Nat → Nat → Option Nat
  pathSprites : PathType → PathData
  pathDecoration : PathDecorationData
  foundation : FoundationType → Nat → Option Nat
  platform : PlatformData
  support : Nat → Option Nat
  buildArrows : Nat → Option Nat
  animations : List (Nat × Nat × Nat)

/-- `SpriteManager::GetSpriteStore` (lines 1602–1606): the manager owns a
single store of tile width 64; every other width yields `nullptr`. -/
def GetSpriteStore (width : Nat) (store : SpriteStorage) : Option SpriteStorage :=
  if width = 64 then some store else none

/-- The common sprite-loading loop `for (sprnum...) if (!LoadSpriteFromFile
(...)) return false;` of the block loaders.  `write i v st` performs the
in-place write of sprite `v` at index `i`; on failure the store mutated so far
is returned together with `none`, exactly as the C++ leaves its partial writes
behind. -/
def loadSpriteSeq (sprites : ImageMap)
    (write : Nat → Option Nat → SpriteStorage → SpriteStorage) :
    Nat → Nat → SpriteStorage → List Nat → SpriteStorage × Option (List Nat)
  | _, 0, st, s => (st, some s)
  | i, n + 1, st, s =>
    match LoadSpriteFromFile s sprites with
    | none => (st, none)
    | some (v, r) => loadSpriteSeq sprites write (i + 1) n (write i v st) r

/-- Sequencing of loader stages that propagates failure while keeping the
partially mutated store (monadic plumbing for the chains of loops in the C++
loaders). -/
def seqThen (r : SpriteStorage × Option (List Nat))
    (k : SpriteStorage → List Nat → SpriteStorage × Option (List Nat)) :
    SpriteStorage × Option (List Nat) :=
  match r with
  | (st, none) => (st, none)
  | (st, some s) => k st s

/-! ## Block loaders keyed by tile width

Each loader returns the (possibly partially) mutated store and `some rest` on
success / `none` on failure, mirroring how the C++ loaders write through
pointers into the shared store as they go.  `PATH_COUNT` and `SSP_COUNT` live
in headers outside the excerpt and are taken as parameters. -/

/-- `SpriteManager::LoadSURF` (lines 246–272).  The C++ `type >= GTP_COUNT`
check is vacuous (every decoded ground type is a valid index) and is not
repeated here. -/
def LoadSURF (version size : Nat) (sprites : ImageMap) (store : SpriteStorage)
    (s : List Nat) : SpriteStorage × Option (List Nat) :=
  if version ≠ 6 ∨ size ≠ 2 + 2 + 2 + 4 * NUM_SLOPE_SPRITES then (store, none)
  else
    match getU16 s with
    | none => (store, none)
    | some (gt, s1) =>
      match decodeGroundType gt with
      | none => (store, none)           -- unknown type of ground
      | some ty =>
        match getU16 s1 with
        | none => (store, none)
        | some (width, s2) =>
          match getU16 s2 with          -- height, discarded
          | none => (store, none)
          | some (_, s3) =>
            match GetSpriteStore width store with
            | none => (store, none)
            | some ss =>
              loadSpriteSeq sprites
                (fun i v st =>
                  { st with surface := fun g j =>
                      if g = ty ∧ j = i then v else st.surface g j })
                0 NUM_SLOPE_SPRITES ss s3

/-- `SpriteManager::LoadTSEL` (lines 280–294). -/
def LoadTSEL (version size : Nat) (sprites : ImageMap) (store : SpriteStorage)
    (s : List Nat) : SpriteStorage × Option (List Nat) :=
  if version ≠ 2 ∨ size ≠ 2 + 2 + 4 * NUM_SLOPE_SPRITES then (store, none)
  else
    match getU16 s with
    | none => (store, none)
    | some (width, s1) =>
      match getU16 s1 with              -- height, discarded
      | none => (store, none)
      | some (_, s2) =>
        match GetSpriteStore width store with
        | none => (store, none)
        | some ss =>
          loadSpriteSeq sprites
            (fun i v st =>
              { st with tileSelect := fun j => if j = i then v else st.tileSelect j })
            0 NUM_SLOPE_SPRITES ss s2

/-- `SpriteManager::LoadPATH` (lines 433–458).  The status is written only
after all sprites loaded, exactly as in the C++. -/
def LoadPATH (pathCount : Nat) (version size : Nat) (sprites : ImageMap)
    (store : SpriteStorage) (s : List Nat) : SpriteStorage × Option (List Nat) :=
  if version ≠ 3 ∨ size ≠ 2 + 2 + 2 + 4 * pathCount then (store, none)
  else
    match getU16 s with
    | none => (store, none)
    | some (ty, s1) =>
      match decodePathType (ty % 32768) with   -- type & 0x7FFF
      | none => (store, none)                  -- unknown type of path
      | some pt =>
        match getU16 s1 with
        | none => (store, none)
        | some (width, s2) =>
          match getU16 s2 with                 -- height, discarded
          | none => (store, none)
          | some (_, s3) =>
            match GetSpriteStore width store with
            | none => (store, none)
            | some ss =>
              seqThen
                (loadSpriteSeq sprites
                  (fun i v st =>
                    { st with pathSprites := fun p =>
                        if p = pt then
                          { status := (st.pathSprites p).status,
                            sprites := fun j =>
                              if j = i then v else (st.pathSprites p).sprites j }
                        else st.pathSprites p })
                  0 pathCount ss s3)
                (fun st r =>
                  -- path->status = (type & 0x8000) ? PAS_QUEUE_PATH : PAS_NORMAL_PATH
                  ({ st with pathSprites := fun p =>
                      if p = pt then
                        { status := if 32768 ≤ ty then .queuePath else .normalPath,
                          sprites := (st.pathSprites p).sprites }
                      else st.pathSprites p }, some r))

/-- Counting loop for the decoration sprite counts (lines 549–562): number of
leading non-null sprites among indices 0–3. -/
def countNonNull4 (f : Nat → Option Nat) : Nat :=
  if f 0 = none then 0
  else if f 1 = none then 1
  else if f 2 = none then 2
  else if f 3 = none then 3
  else 4

/-- `SpriteManager::LoadPDEC` (lines 498–565): seven edge-indexed groups, then
flat/ramp litter and vomit sprites, then the counts. -/
def LoadPDEC (version size : Nat) (sprites : ImageMap) (store : SpriteStorage)
    (s : List Nat) : SpriteStorage × Option (List Nat) :=
  if version ≠ 1 ∨ size ≠ 2 + 7 * 4 * 4 + 2 * (1 + 4) * 4 * 4 then (store, none)
  else
    match getU16 s with
    | none => (store, none)
    | some (width, s1) =>
      match GetSpriteStore width store with
      | none => (store, none)
      | some ss =>
        seqThen (loadSpriteSeq sprites (fun i v st =>
            { st with pathDecoration :=
              { st.pathDecoration with litterbin := fun j =>
                  if j = i then v else st.pathDecoration.litterbin j } })
          0 EDGE_COUNT ss s1) fun st s => seqThen (loadSpriteSeq sprites (fun i v st =>
            { st with pathDecoration :=
              { st.pathDecoration with overflowBin := fun j =>
                  if j = i then v else st.pathDecoration.overflowBin j } })
          0 EDGE_COUNT st s) fun st s => seqThen (loadSpriteSeq sprites (fun i v st =>
            { st with pathDecoration :=
              { st.pathDecoration with demolishedBin := fun j =>
                  if j = i then v else st.pathDecoration.demolishedBin j } })
          0 EDGE_COUNT st s) fun st s => seqThen (loadSpriteSeq sprites (fun i v st =>
            { st with pathDecoration :=
              { st.pathDecoration with lampPost := fun j =>
                  if j = i then v else st.pathDecoration.lampPost j } })
          0 EDGE_COUNT st s) fun st s => seqThen (loadSpriteSeq sprites (fun i v st =>
            { st with pathDecoration :=
              { st.pathDecoration with demolishedLamp := fun j =>
                  if j = i then v else st.pathDecoration.demolishedLamp j } })
          0 EDGE_COUNT st s) fun st s => seqThen (loadSpriteSeq sprites (fun i v st =>
            { st with pathDecoration :=
              { st.pathDecoration with bench := fun j =>
                  if j = i then v else st.pathDecoration.bench j } })
          0 EDGE_COUNT st s) fun st s => seqThen (loadSpriteSeq sprites (fun i v st =>
            { st with pathDecoration :=
              { st.pathDecoration with demolishedBench := fun j =>
                  if j = i then v else st.pathDecoration.demolishedBench j } })
          0 EDGE_COUNT st s) fun st s => seqThen (loadSpriteSeq sprites (fun i v st =>
            { st with pathDecoration :=
              { st.pathDecoration with flatLitter := fun j =>
                  if j = i then v else st.pathDecoration.flatLitter j } })
          0 4 st s) fun st s => seqThen (loadSpriteSeq sprites (fun i v st =>
            { st with pathDecoration :=
              { st.pathDecoration with rampLitter := fun e j =>
                  if e = i / 4 ∧ j = i % 4 then v else st.pathDecoration.rampLitter e j } })
          0 (EDGE_COUNT * 4) st s) fun st s => seqThen (loadSpriteSeq sprites (fun i v st =>
            { st with pathDecoration :=
              { st.pathDecoration with flatVomit := fun j =>
                  if j = i then v else st.pathDecoration.flatVomit j } })
          0 4 st s) fun st s => seqThen (loadSpriteSeq sprites (fun i v st =>
            { st with pathDecoration :=
              { st.pathDecoration with rampVomit := fun e j =>
                  if e = i / 4 ∧ j = i % 4 then v else st.pathDecoration.rampVomit e j } })
          0 (EDGE_COUNT * 4) st s) fun st s =>
            -- Data loaded, setup the counts.
            ({ st with pathDecoration :=
              { st.pathDecoration with
                flatLitterCount := countNonNull4 st.pathDecoration.flatLitter,
                flatVomitCount := countNonNull4 st.pathDecoration.flatVomit,
                rampLitterCount := fun e => countNonNull4 (st.pathDecoration.rampLitter e),
                rampVomitCount := fun e => countNonNull4 (st.pathDecoration.rampVomit e) } },
             some s)

/-- `SpriteManager::LoadTCOR` (lines 580–598): `VOR_NUM_ORIENT` rows of
`NUM_SLOPE_SPRITES` sprites; the linear sprite index `i` addresses row
`i / NUM_SLOPE_SPRITES`, column `i % NUM_SLOPE_SPRITES`. -/
def LoadTCOR (version size : Nat) (sprites : ImageMap) (store : SpriteStorage)
    (s : List Nat) : SpriteStorage × Option (List Nat) :=
  if version ≠ 2 ∨ size ≠ 2 + 2 + 4 * VOR_NUM_ORIENT * NUM_SLOPE_SPRITES then (store, none)
  else
    match getU16 s with
    | none => (store, none)
    | some (width, s1) =>
      match getU16 s1 with              -- height, discarded
      | none => (store, none)
      | some (_, s2) =>
        match GetSpriteStore width store with
        | none => (store, none)
        | some ss =>
          loadSpriteSeq sprites
            (fun i v st =>
              { st with tileCorners := fun o j =>
                  if o = i / NUM_SLOPE_SPRITES ∧ j = i % NUM_SLOPE_SPRITES then v
                  else st.tileCorners o j })
            0 (VOR_NUM_ORIENT * NUM_SLOPE_SPRITES) ss s2

/-- `SpriteManager::LoadFUND` (lines 610–630). -/
def LoadFUND (version size : Nat) (sprites : ImageMap) (store : SpriteStorage)
    (s : List Nat) : SpriteStorage × Option (List Nat) :=
  if version ≠ 1 ∨ size ≠ 2 + 2 + 2 + 4 * 6 then (store, none)
  else
    match getU16 s with
    | none => (store, none)
    | some (tp, s1) =>
      match decodeFoundationType tp with
      | none => (store, none)
      | some ty =>
        match getU16 s1 with
        | none => (store, none)
        | some (width, s2) =>
          match getU16 s2 with          -- height, discarded
          | none => (store, none)
          | some (_, s3) =>
            match GetSpriteStore width store with
            | none => (store, none)
            | some ss =>
              loadSpriteSeq sprites
                (fun i v st =>
                  { st with foundation := fun f j =>
                      if f = ty ∧ j = i then v else st.foundation f j })
                0 6 ss s3

/-- `SpriteManager::LoadPLAT` (lines 643–668): two flat sprites, then the
three ramp arrays (the size formula `2*4 + 12*4` fixes 2 flat and 12 ramp
sprites, 4 per array). -/
def LoadPLAT (version size : Nat) (sprites : ImageMap) (store : SpriteStorage)
    (s : List Nat) : SpriteStorage × Option (List Nat) :=
  if version ≠ 2 ∨ size ≠ 2 + 2 + 2 + 2 * 4 + 12 * 4 then (store, none)
  else
    match getU16 s with
    | none => (store, none)
    | some (width, s1) =>
      match getU16 s1 with              -- height, discarded
      | none => (store, none)
      | some (_, s2) =>
        match getU16 s2 with
        | none => (store, none)
        | some (ty, s3) =>
          if ty ≠ 16 then (store, none) -- only accept type 16 'wood'
          else
            match GetSpriteStore width store with
            | none => (store, none)
            | some ss =>
              seqThen (loadSpriteSeq sprites (fun i v st =>
                  { st with platform :=
                    { st.platform with flat := fun j =>
                        if j = i then v else st.platform.flat j } })
                0 2 ss s3) fun st s => seqThen (loadSpriteSeq sprites (fun i v st =>
                  { st with platform :=
                    { st.platform with ramp := fun j =>
                        if j = i then v else st.platform.ramp j } })
                0 4 st s) fun st s => seqThen (loadSpriteSeq sprites (fun i v st =>
                  { st with platform :=
                    { st.platform with rightRamp := fun j =>
                        if j = i then v else st.platform.rightRamp j } })
                0 4 st s) fun st s => loadSpriteSeq sprites (fun i v st =>
                  { st with platform :=
                    { st.platform with leftRamp := fun j =>
                        if j = i then v else st.platform.leftRamp j } })
                0 4 st s

/-- `SpriteManager::LoadSUPP` (lines 680–697). -/
def LoadSUPP (sspCount : Nat) (version size : Nat) (sprites : ImageMap)
    (store : SpriteStorage) (s : List Nat) : SpriteStorage × Option (List Nat) :=
  if version ≠ 1 ∨ size ≠ 2 + 2 + 2 + sspCount * 4 then (store, none)
  else
    match getU16 s with
    | none => (store, none)
    | some (ty, s1) =>
      if ty ≠ 16 then (store, none)     -- only accept type 16 'wood'
      else
        match getU16 s1 with
        | none => (store, none)
        | some (width, s2) =>
          match getU16 s2 with          -- height, discarded
          | none => (store, none)
          | some (_, s3) =>
            match GetSpriteStore width store with
            | none => (store, none)
            | some ss =>
              loadSpriteSeq sprites
                (fun i v st =>
                  { st with support := fun j => if j = i then v else st.support j })
                0 sspCount ss s3

/-- `SpriteManager::LoadBDIR` (lines 710–723). -/
def LoadBDIR (version size : Nat) (sprites : ImageMap) (store : SpriteStorage)
    (s : List Nat) : SpriteStorage × Option (List Nat) :=
  if version ≠ 1 ∨ size ≠ 2 + 4 * 4 then (store, none)
  else
    match getU16 s with
    | none => (store, none)
    | some (width, s1) =>
      match GetSpriteStore width store with
      | none => (store, none)
      | some ss =>
        loadSpriteSeq sprites
          (fun i v st =>
            { st with buildArrows := fun j => if j = i then v else st.buildArrows j })
          0 4 ss s1

/-! ## Animations (`Animation::Load`, lines 759–790) -/

/-- Person types (`PersonType`); `PERSON_INVALID` is `none` of the decode. -/
inductive PersonType where
  | any | guest | handyman | mechanic | guardP | entertainer
deriving DecidableEq

/-- `DecodePersonType` (lines 740–752). -/
def DecodePersonType (pt : Nat) : Option PersonType :=
  if pt = 0 then some .any
  else if pt = 8 then some .guest
  else if pt = 16 then some .guest
  else if pt = 17 then some .handyman
  else if pt = 18 then some .mechanic
  else if pt = 19 then some .guardP
  else if pt = 20 then some .entertainer
  else none

/-- One animation frame (`AnimationFrame`). -/
structure AnimationFrame where
  duration : Nat
  dx : Int
  dy : Int
deriving DecidableEq

/-- A decoded ANIM block (`Animation`). -/
structure AnimationObj where
  personType : PersonType
  animType : Nat
  frames : List AnimationFrame

/-- The frame-reading loop of `Animation::Load` (lines 774–788), one iteration
per frame, with the per-frame sanity limits of the C++. -/
def loadFrames : Nat → List Nat → Option (List AnimationFrame × List Nat)
  | 0, s => some ([], s)
  | n + 1, s =>
    match getU16 s with
    | none => none
    | some (dur, s1) =>
      if dur = 0 ∨ 5000 ≤ dur then none          -- arbitrary sanity limit
      else
        match getI16 s1 with
        | none => none
        | some (dx, s2) =>
          if dx < -100 ∨ 100 < dx then none      -- arbitrary sanity limit
          else
            match getI16 s2 with
            | none => none
            | some (dy, s3) =>
              if dy < -100 ∨ 100 < dy then none  -- arbitrary sanity limit
              else
                match loadFrames n s3 with
                | none => none
                | some (fs, s4) => some (⟨dur, dx, dy⟩ :: fs, s4)

/-- `Animation::Load` (lines 759–790).  `ANIM_BEGIN`/`ANIM_LAST` live in a
header outside the excerpt and are taken as parameters. -/
def Animation.Load (animBegin animLast : Nat) (version size : Nat) (s : List Nat) :
    Option (AnimationObj × List Nat) :=
  -- BASE_LENGTH = 1 + 2 + 2
  if version ≠ 4 ∨ size < 1 + 2 + 2 then none
  else
    match getU8 s with
    | none => none
    | some (pt, s1) =>
      match DecodePersonType pt with
      | none => none
      | some person =>
        match getU16 s1 with
        | none => none
        | some (at2, s2) =>
          if at2 < animBegin ∨ animLast < at2 then none
          else
            match getU16 s2 with
            | none => none
            | some (fc, s3) =>
              if size ≠ 1 + 2 + 2 + fc * 6 then none
              else if fc = 0 then none   -- frames == nullptr || frame_count == 0
              else
                match loadFrames fc s3 with
                | none => none
                | some (frames, s4) => some (⟨person, at2, frames⟩, s4)

/-! ## The block dispatcher (`SpriteManager::Load`, lines 1351–1595)

The dispatcher is modelled at byte level over the whole file stream.  Tags are
the raw 4-byte names.  Handlers whose decode routines live outside the
excerpted file (FENC's store registration is in the excerpt but the GUI, ride,
scenery and track handlers call code in other translation units) are not
modelled: dispatching to them yields the distinguished result
`LoadResult.unmodeled`, and no theorem below depends on those branches.
`PRSG`, `SHOP`, … are nevertheless recognised tags: they are never treated as
unknown blocks. -/

/-- The 4-byte tag constants of the dispatcher (ASCII). -/
def tagINFO : List Nat := [73, 78, 70, 79]
def tag8PXL : List Nat := [56, 80, 88, 76]
def tag32PX : List Nat := [51, 50, 80, 88]
def tagSURF : List Nat := [83, 85, 82, 70]
def tagTSEL : List Nat := [84, 83, 69, 76]
def tagPATH : List Nat := [80, 65, 84, 72]
def tagPDEC : List Nat := [80, 68, 69, 67]
def tagTCOR : List Nat := [84, 67, 79, 82]
def tagFENC : List Nat := [70, 69, 78, 67]
def tagFUND : List Nat := [70, 85, 78, 68]
def tagPLAT : List Nat := [80, 76, 65, 84]
def tagSUPP : List Nat := [83, 85, 80, 80]
def tagBDIR : List Nat := [66, 68, 73, 82]
def tagGCHK : List Nat := [71, 67, 72, 75]
def tagGBOR : List Nat := [71, 66, 79, 82]
def tagGSLI : List Nat := [71, 83, 76, 73]
def tagGSCL : List Nat := [71, 83, 67, 76]
def tagGSLP : List Nat := [71, 83, 76, 80]
def tagMENU : List Nat := [77, 69, 78, 85]
def tagANIM : List Nat := [65, 78, 73, 77]
def tagANSP : List Nat := [65, 78, 83, 80]
def tagPRSG : List Nat := [80, 82, 83, 71]
def tagTEXT : List Nat := [84, 69, 88, 84]
def tagSHOP : List Nat := [83, 72, 79, 80]
def tagFSET : List Nat := [70, 83, 69, 84]
def tagTIMA : List Nat := [84, 73, 77, 65]
def tagSCNY : List Nat := [83, 67, 78, 89]
def tagRIEE : List Nat := [82, 73, 69, 69]
def tagFGTR : List Nat := [70, 71, 84, 82]
def tagTRCK : List Nat := [84, 82, 67, 75]
def tagRCST : List Nat := [82, 67, 83, 84]
def tagCSPL : List Nat := [67, 83, 80, 76]
def tagCARS : List Nat := [67, 65, 82, 83]

/-- All tags the dispatcher recognises; every other tag takes the
skip-and-continue path at the bottom of the loop. -/
def recognizedTags : List (List Nat) :=
  [tagINFO, tag8PXL, tag32PX, tagSURF, tagTSEL, tagPATH, tagPDEC, tagTCOR,
   tagFENC, tagFUND, tagPLAT, tagSUPP, tagBDIR, tagGCHK, tagGBOR, tagGSLI,
   tagGSCL, tagGSLP, tagMENU, tagANIM, tagANSP, tagPRSG, tagTEXT, tagSHOP,
   tagFSET, tagTIMA, tagSCNY, tagRIEE, tagFGTR, tagTRCK, tagRCST, tagCSPL,
   tagCARS]

/-- The recognised tags whose decode routines are outside the embedding's
scope (see the section comment). -/
def unmodeledTags : List (List Nat) :=
  [tagFENC, tagGCHK, tagGBOR, tagGSLI, tagGSCL, tagGSLP, tagMENU, tagANSP,
   tagPRSG, tagSHOP, tagFSET, tagTIMA, tagSCNY, tagRIEE, tagFGTR, tagTRCK,
   tagRCST, tagCSPL, tagCARS]

/-- Modelled from the spec: `RcdFileReader::ReadBlockHeader` (rcdfile.cpp is
not under src/) — one `{4-byte tag, u32 version, u32 length}` triple (§6);
end of stream at a header boundary is normal termination (`none`). -/
def readBlockHeader (s : List Nat) : Option (List Nat × Nat × Nat × List Nat) :=
  match getBlob 4 s with
  | none => none
  | some (tag, s1) =>
    match getU32 s1 with
    | none => none
    | some (version, s2) =>
      match getU32 s2 with
      | none => none
      | some (size, s3) => some (tag, version, size, s3)

/-- Modelled from the spec: `LoadImage` (sprite_data.cpp is not under src/) —
decodes one 8PXL/32PX image block, consuming the block's declared payload
(§3: unknown payloads are delimited by `length`); the decoded `ImageData*` is
represented by the block number that registers it. -/
def loadImage (size : Nat) (s : List Nat) : Option (List Nat) :=
  skipBytes size s

/-- A block owned by the manager's block list (`RcdBlock` ownership in
`SpriteManager::AddBlock`). -/
inductive BlockObj where
  | textBlock (t : TextDataM)
  | animBlock (a : AnimationObj)

/-- `SpriteStorage::RemoveAnimations` (lines 1290–1307): drop the ANSP entries
with the given animation type and person type. -/
def RemoveAnimations (animType personType : Nat) (store : SpriteStorage) :
    SpriteStorage :=
  { store with animations :=
      store.animations.filter fun e => !(e.1 = animType && e.2.1 = personType) }

/-- The shared, long-lived manager state mutated by the dispatcher:
the width-64 sprite store, the owned block list, and the manager's
animations registry. -/
structure MgrState where
  store : SpriteStorage
  blocks : List BlockObj
  animations : List (Nat × AnimationObj)

/-- Outcome of a dispatch run. -/
inductive LoadResult where
  | ok
  | err (msg : String)
  | unmodeled (tag : List Nat)

/-- Constants of the repository that live in headers outside the excerpt
(`PATH_COUNT`, `SSP_COUNT`, `ANIM_BEGIN`, `ANIM_LAST`) and the language lookup
`GetLanguageIndex`; the dispatcher is parameterised over them. -/
structure Params where
  pathCount : Nat
  sspCount : Nat
  animBegin : Nat
  animLast : Nat
  langIndex : List Nat → Option Nat

/-- Numeric code of a person type, used as the `RemoveAnimations` key.  (The
C++ passes the enum value itself; only equality of keys matters here.) -/
def PersonType.code : PersonType → Nat
  | .any => 0
  | .guest => 1
  | .handyman => 2
  | .mechanic => 3
  | .guardP => 4
  | .entertainer => 5

/-- The dispatch loop of `SpriteManager::Load` (lines 1361–1595).  One fuel
unit per block; every iteration consumes at least the 12 header bytes, so the
fuel `stream length + 1` supplied by `SpriteManager.Load` is never exhausted.
On an error the state mutated so far is returned with the C++ error message;
`sprites`/`texts` are the per-file cross-reference maps, `blkNum` the running
block number. -/
def runLoadAux (P : Params) :
    Nat → MgrState → ImageMap → TextMap → Nat → List Nat → MgrState × LoadResult
  | 0, st, _, _, _, _ => (st, .err "out of fuel")
  | fuel + 1, st, sprites, texts, blkNum, s =>
    match readBlockHeader s with
    | none => (st, .ok)                                  -- end reached
    | some (tag, version, size, rest) =>
      if tag = tagINFO then                              -- skip meta blocks
        match skipBytes size rest with
        | none => (st, .err "Invalid INFO block.")
        | some r => runLoadAux P fuel st sprites texts (blkNum + 1) r
      else if tag = tag8PXL ∨ tag = tag32PX then
        match loadImage size rest with
        | none => (st, .err "Image data loading failed")
        | some r =>
          runLoadAux P fuel st
            (fun k => if k = blkNum then some blkNum else sprites k)
            texts (blkNum + 1) r
      else if tag = tagSURF then
        match LoadSURF version size sprites st.store rest with
        | (store', none) => ({ st with store := store' }, .err "Surface block loading failed.")
        | (store', some r) =>
          runLoadAux P fuel { st with store := store' } sprites texts (blkNum + 1) r
      else if tag = tagTSEL then
        match LoadTSEL version size sprites st.store rest with
        | (store', none) => ({ st with store := store' }, .err "Tile-selection block loading failed.")
        | (store', some r) =>
          runLoadAux P fuel { st with store := store' } sprites texts (blkNum + 1) r
      else if tag = tagPATH then
        match LoadPATH P.pathCount version size sprites st.store rest with
        | (store', none) => ({ st with store := store' }, .err "Path-sprites block loading failed.")
        | (store', some r) =>
          runLoadAux P fuel { st with store := store' } sprites texts (blkNum + 1) r
      else if tag = tagPDEC then
        match LoadPDEC version size sprites st.store rest with
        | (store', none) => ({ st with store := store' }, .err "Path decoration block loading failed.")
        | (store', some r) =>
          runLoadAux P fuel { st with store := store' } sprites texts (blkNum + 1) r
      else if tag = tagTCOR then
        match LoadTCOR version size sprites st.store rest with
        | (store', none) => ({ st with store := store' }, .err "Tile-corners block loading failed.")
        | (store', some r) =>
          runLoadAux P fuel { st with store := store' } sprites texts (blkNum + 1) r
      else if tag = tagFUND then
        match LoadFUND version size sprites st.store rest with
        | (store', none) => ({ st with store := store' }, .err "Foundation block loading failed.")
        | (store', some r) =>
          runLoadAux P fuel { st with store := store' } sprites texts (blkNum + 1) r
      else if tag = tagPLAT then
        match LoadPLAT version size sprites st.store rest with
        | (store', none) => ({ st with store := store' }, .err "Platform block loading failed.")
        | (store', some r) =>
          runLoadAux P fuel { st with store := store' } sprites texts (blkNum + 1) r
      else if tag = tagSUPP then
        match LoadSUPP P.sspCount version size sprites st.store rest with
        | (store', none) => ({ st with store := store' }, .err "Support block loading failed.")
        | (store', some r) =>
          runLoadAux P fuel { st with store := store' } sprites texts (blkNum + 1) r
      else if tag = tagBDIR then
        match LoadBDIR version size sprites st.store rest with
        | (store', none) => ({ st with store := store' }, .err "Build arrows block loading failed.")
        | (store', some r) =>
          runLoadAux P fuel { st with store := store' } sprites texts (blkNum + 1) r
      else if tag = tagANIM then
        match Animation.Load P.animBegin P.animLast version size rest with
        | none => (st, .err "Animation failed to load.")
        | some (anim, r) =>
          -- AddAnimation, then store.RemoveAnimations, then AddBlock; the
          -- person/anim-invalid re-check of the C++ cannot fire (Load already
          -- rejected invalid codes).
          runLoadAux P fuel
            { st with
              animations := st.animations ++ [(anim.animType, anim)],
              store := RemoveAnimations anim.animType anim.personType.code st.store,
              blocks := st.blocks ++ [.animBlock anim] }
            sprites texts (blkNum + 1) r
      else if tag = tagTEXT then
        match TextData.Load P.langIndex version size rest with
        | none => (st, .err "Text block failed to load.")
        | some (strs, _, r) =>
          runLoadAux P fuel
            { st with blocks := st.blocks ++ [.textBlock strs] }
            sprites (fun k => if k = blkNum then some strs else texts k)
            (blkNum + 1) r
      else if tag ∈ unmodeledTags then (st, .unmodeled tag)
      else
        -- unknown block in the RCD file: log and skip the block
        match skipBytes size rest with
        | none => (st, .err "Error skipping unknown block.")
        | some r => runLoadAux P fuel st sprites texts (blkNum + 1) r

/-- Modelled from the spec: `RcdFileReader::CheckFileHeader("RCDF", 2)`
(rcdfile.cpp is not under src/) — the magic tag `"RCDF"` and container-format
version 2 (§6). -/
def CheckFileHeader (s : List Nat) : Option (List Nat) :=
  match getBlob 4 s with
  | none => none
  | some (magic, s1) =>
    if magic = [82, 67, 68, 70] then               -- "RCDF"
      match getU32 s1 with
      | none => none
      | some (v, s2) => if v = 2 then some s2 else none
    else none

/-- `SpriteManager::Load` (lines 1351–1595): header check, then the dispatch
loop starting at block number 1 with empty per-file maps. -/
def SpriteManager.Load (P : Params) (st : MgrState) (s : List Nat) :
    MgrState × LoadResult :=
  match CheckFileHeader s with
  | none => (st, .err "Bad header")
  | some rest => runLoadAux P (rest.length + 1) st (fun _ => none) (fun _ => none) 1 rest

/-! ## Concrete inputs used by witnesses and counterexamples -/

/-- An empty sprite store (all sprite slots null), used as the initial state of
concrete runs in witnesses and counterexamples. -/
def emptyStore : SpriteStorage where
  surface := fun _ _ => none
  tileSelect := fun _ => none
  tileCorners := fun _ _ => none
  pathSprites := fun _ => ⟨.unused, fun _ => none⟩
  pathDecoration :=
    ⟨fun _ => none, fun _ => none, fun _ => none, fun _ => none, fun _ => none,
     fun _ => none, fun _ => none, fun _ => none, fun _ _ => none, fun _ => none,
     fun _ _ => none, 0, 0, fun _ => 0, fun _ => 0⟩
  foundation := fun _ _ => none
  platform := ⟨fun _ => none, fun _ => none, fun _ => none, fun _ => none⟩
  support := fun _ => none
  buildArrows := fun _ => none
  animations := []

/-- A well-formed SURF payload: ground type 16, width 64, height 0, and 23
null sprite references. -/
def surfOkPayload : List Nat := [16, 0, 64, 0, 0, 0] ++ List.replicate 92 0

/-- A SURF payload with the unknown ground-type code 99. -/
def surfBadPayload : List Nat := [99, 0, 64, 0, 0, 0] ++ List.replicate 92 0

/-- A PATH payload (with `PATH_COUNT = 1`): type code 0x8004 (wood, queue
flag set), width 64, height 0, one null sprite reference. -/
def pathQueuePayload : List Nat := [4, 128, 64, 0, 0, 0, 0, 0, 0, 0]

/-- A language lookup that knows the single language name `"en\x00"` at
index 0 (concrete stand-in for `GetLanguageIndex` in witnesses). -/
def exLang : List Nat → Option Nat := fun l => if l = [101, 110, 0] then some 0 else none

/-- A well-formed TEXT payload: one record (declared length 13) with name
`"A\x00"` and one translation (declared length 8) with language `"en\x00"`
and text `"H\x00"`. -/
def exTextPayload : List Nat := [13, 0, 2, 65, 0, 8, 0, 3, 101, 110, 0, 72, 0]

/-- Concrete dispatcher parameters used in witnesses and counterexamples. -/
def exParams : Params := ⟨0, 0, 0, 0, fun _ => none⟩

/-- The empty manager state. -/
def initMgr : MgrState := ⟨emptyStore, [], []⟩

/-- A two-block RCD file: block 1 registers image 1 (an empty 8PXL block),
block 2 is a SURF block whose first sprite reference (1) resolves and whose
second reference (7) is unregistered, so the SURF handler fails after having
written sprite 1 into the shared store. -/
def exStream : List Nat :=
  [82, 67, 68, 70] ++ u32le 2
  ++ tag8PXL ++ u32le 2 ++ u32le 0
  ++ tagSURF ++ u32le 6 ++ u32le 98 ++ [16, 0, 64, 0, 0, 0] ++ u32le 1 ++ u32le 7

/-- A TEXT block whose 1-byte payload fails to decode (too short for a
record header). -/
def textFailBlock : List Nat := tagTEXT ++ u32le 2 ++ u32le 1 ++ [0]

/-! # Auxiliary lemmas -/

theorem getU16_some {s : List Nat} {x : Nat} {r : List Nat}
    (h : getU16 s = some (x, r)) :
    r = s.drop 2 ∧ u16At s 0 = some x ∧ x < 65536 ∧ 2 ≤ s.length := by
  match s with
  | [] => simp [getU16] at h
  | [_] => simp [getU16] at h
  | b0 :: b1 :: t =>
    simp [getU16] at h
    obtain ⟨hx, hr⟩ := h
    subst hx hr
    refine ⟨rfl, by simp [u16At], by omega, by simp⟩

theorem getU8_some {s : List Nat} {x : Nat} {r : List Nat}
    (h : getU8 s = some (x, r)) :
    r = s.drop 1 ∧ 1 ≤ s.length := by
  match s with
  | [] => simp [getU8] at h
  | b :: t =>
    simp [getU8] at h
    obtain ⟨hx, hr⟩ := h
    subst hr
    exact ⟨rfl, by simp⟩

theorem u16At_drop {s t : List Nat} {k : Nat} (h : t = s.drop k) :
    u16At s k = u16At t 0 := by
  subst h
  simp [u16At]

theorem ReadUtf8Text_some {n cap used : Nat} {s : List Nat}
    {used' : Nat} {blob rest : List Nat}
    (h : ReadUtf8Text n cap used s = some (used', blob, rest)) :
    used' = used + n ∧ used + n ≤ cap ∧ n ≤ s.length ∧ blob = s.take n ∧
    rest = s.drop n ∧ validUtf8Nul (s.take n) = true := by
  unfold ReadUtf8Text at h
  split at h
  · exact Option.noConfusion h
  rename_i hcap
  split at h
  · exact Option.noConfusion h
  rename_i blob0 rest0 hg
  split at h
  · rename_i hvalid
    unfold getBlob at hg
    split at hg
    · rename_i hn
      simp only [Option.some.injEq, Prod.mk.injEq] at hg h
      obtain ⟨hb0, hr0⟩ := hg
      obtain ⟨h1, h2, h3⟩ := h
      subst hb0 hr0 h2 h3
      exact ⟨h1.symm, by omega, hn, rfl, rfl, hvalid⟩
    · exact Option.noConfusion hg
  · exact Option.noConfusion h

theorem decodeUtf8Char_zero {l : List Nat} {sz : Nat}
    (h : decodeUtf8Char l = some (0, sz)) :
    ∃ b t, l = b :: t ∧ b % 256 = 0 := by
  match l with
  | [] => simp [decodeUtf8Char] at h
  | b :: rest =>
    refine ⟨b, rest, rfl, ?_⟩
    by_cases h1 : b % 256 < 128
    · simp [decodeUtf8Char, h1] at h
      omega
    · by_cases h2 : b % 256 < 194
      · simp [decodeUtf8Char, h1, h2] at h
      · by_cases h3 : b % 256 < 224
        · match rest with
          | [] => simp [decodeUtf8Char, h1, h2, h3] at h
          | c1 :: r =>
            -- two-byte form: code point at least 2 * 64
            simp [decodeUtf8Char, h1, h2, h3, isCont] at h
            omega
        · by_cases h4 : b % 256 < 240
          · match rest with
            | [] => simp [decodeUtf8Char, h1, h2, h3, h4] at h
            | [c1] => simp [decodeUtf8Char, h1, h2, h3, h4] at h
            | c1 :: c2 :: r =>
              -- three-byte form: no overlong, so code point at least 0x800
              simp [decodeUtf8Char, h1, h2, h3, h4, isCont] at h
              omega
          · by_cases h5 : b % 256 < 245
            · match rest with
              | [] => simp [decodeUtf8Char, h1, h2, h3, h4, h5] at h
              | [c1] => simp [decodeUtf8Char, h1, h2, h3, h4, h5] at h
              | [c1, c2] => simp [decodeUtf8Char, h1, h2, h3, h4, h5] at h
              | c1 :: c2 :: c3 :: r =>
                -- four-byte form: no overlong, so code point at least 0x10000
                simp [decodeUtf8Char, h1, h2, h3, h4, h5, isCont] at h
                omega
            · simp [decodeUtf8Char, h1, h2, h3, h4, h5] at h

theorem validUtf8NulAux_mem_zero :
    ∀ (fuel : Nat) (l : List Nat), validUtf8NulAux fuel l = true →
      ∃ b ∈ l, b % 256 = 0 := by
  intro fuel
  induction fuel with
  | zero => intro l h; simp [validUtf8NulAux] at h
  | succ fuel ih =>
    intro l h
    cases hdec : decodeUtf8Char l with
    | none => simp [validUtf8NulAux, hdec] at h
    | some p =>
      obtain ⟨cp, sz⟩ := p
      simp only [validUtf8NulAux, hdec] at h
      by_cases hlen : l.length < sz
      · simp [hlen] at h
      · by_cases hcp : cp = 0
        · subst hcp
          obtain ⟨b, t, hl, hb⟩ := decodeUtf8Char_zero hdec
          exact ⟨b, by simp [hl], hb⟩
        · simp only [if_neg hlen, if_neg hcp] at h
          obtain ⟨b, hmem, hb⟩ := ih _ h
          exact ⟨b, List.mem_of_mem_drop hmem, hb⟩

/-! # Claims -/

/-- C1: For every sprite or text cross-reference read during a file's decode
(`LoadSpriteFromFile` / `LoadTextFromFile`): if the 32-bit ID read is 0, the
operation succeeds and stores the null/absent reference without consulting the
table; if the ID is nonzero and registered, the operation succeeds and yields
exactly the registered object; if the ID is nonzero and unregistered, the
operation fails. -/
theorem C1_cross_reference_resolution
    (s : List Nat) (sprites : ImageMap) (texts : TextMap) (v : Nat) (rest : List Nat)
    (h : getU32 s = some (v, rest)) :
    (v = 0 → LoadSpriteFromFile s sprites = some (none, rest)
           ∧ LoadTextFromFile s texts = some (none, rest))
  ∧ (v ≠ 0 → ∀ o, sprites v = some o → LoadSpriteFromFile s sprites = some (some o, rest))
  ∧ (v ≠ 0 → sprites v = none → LoadSpriteFromFile s sprites = none)
  ∧ (v ≠ 0 → ∀ t, texts v = some t → LoadTextFromFile s texts = some (some t, rest))
  ∧ (v ≠ 0 → texts v = none → LoadTextFromFile s texts = none) := by
  unfold LoadSpriteFromFile LoadTextFromFile
  rw [h]
  refine ⟨fun h0 => ?_, fun hne o ho => ?_, fun hne ho => ?_,
          fun hne t ht => ?_, fun hne ht => ?_⟩ <;>
    simp_all

/-- Witness for C1 at a concrete registered ID 5 mapping to sprite 77. -/
theorem C1_cross_reference_resolution_witness :
    LoadSpriteFromFile [5, 0, 0, 0, 9] (fun k => if k = 5 then some 77 else none)
      = some (some 77, [9]) :=
  (C1_cross_reference_resolution [5, 0, 0, 0, 9]
      (fun k => if k = 5 then some 77 else none) (fun _ => none) 5 [9] rfl).2.1
    (by decide) 77 rfl

/-- C3: Every text field read with a declared byte length `n` consumes exactly
`n` bytes and succeeds only if those bytes are well-formed NUL-terminated
UTF-8 (the NUL lying within the `n` bytes); any malformed sequence or missing
NUL makes the read fail, never a best-effort substitution. -/
theorem C3_utf8_text_read
    (n cap used : Nat) (s : List Nat) (used' : Nat) (blob rest : List Nat)
    (h : ReadUtf8Text n cap used s = some (used', blob, rest)) :
    rest = s.drop n ∧ n ≤ s.length ∧ blob = s.take n ∧ used' = used + n
  ∧ validUtf8Nul (s.take n) = true
  ∧ (∃ b ∈ s.take n, b % 256 = 0)
  ∧ (∀ (m capm usedm : Nat) (t : List Nat),
       validUtf8Nul (t.take m) = false → ReadUtf8Text m capm usedm t = none) := by
  obtain ⟨h1, h2, h3, h4, h5, h6⟩ := ReadUtf8Text_some h
  refine ⟨h5, h3, h4, h1, h6, validUtf8NulAux_mem_zero _ _ h6, ?_⟩
  intro m capm usedm t hbad
  unfold ReadUtf8Text
  split
  · rfl
  · unfold getBlob
    split
    · rfl
    · rename_i blob' rest' heq
      split at heq
      · simp only [Option.some.injEq, Prod.mk.injEq] at heq
        obtain ⟨hb, hr⟩ := heq
        subst hb
        rw [hbad]
        simp
      · exact Option.noConfusion heq

/-- Witness for C3: the two bytes `"A\x00"` read from `[65, 0, 7]`. -/
theorem C3_utf8_text_read_witness :
    [7] = List.drop 2 [65, 0, 7] ∧ 2 ≤ List.length [65, 0, 7]
  ∧ [65, 0] = List.take 2 [65, 0, 7] ∧ 2 = 0 + 2
  ∧ validUtf8Nul (List.take 2 [65, 0, 7]) = true
  ∧ (∃ b ∈ List.take 2 [65, 0, 7], b % 256 = 0)
  ∧ (∀ (m capm usedm : Nat) (t : List Nat),
       validUtf8Nul (t.take m) = false → ReadUtf8Text m capm usedm t = none) :=
  C3_utf8_text_read 2 10 0 [65, 0, 7] 2 [65, 0] [7] rfl

theorem loadFrames_some :
    ∀ (n : Nat) (s : List Nat) (fs : List AnimationFrame) (r : List Nat),
      loadFrames n s = some (fs, r) →
      fs.length = n ∧ ∀ f ∈ fs, 0 < f.duration ∧ f.duration < 5000 ∧
        -100 ≤ f.dx ∧ f.dx ≤ 100 ∧ -100 ≤ f.dy ∧ f.dy ≤ 100 := by
  intro n
  induction n with
  | zero =>
    intro s fs r h
    simp only [loadFrames, Option.some.injEq, Prod.mk.injEq] at h
    obtain ⟨h1, _⟩ := h
    subst h1
    exact ⟨rfl, by simp⟩
  | succ n ih =>
    intro s fs r h
    unfold loadFrames at h
    split at h
    · exact Option.noConfusion h
    rename_i dur s1 _
    split at h
    · exact Option.noConfusion h
    rename_i hdur
    split at h
    · exact Option.noConfusion h
    rename_i dx s2 _
    split at h
    · exact Option.noConfusion h
    rename_i hdx
    split at h
    · exact Option.noConfusion h
    rename_i dy s3 _
    split at h
    · exact Option.noConfusion h
    rename_i hdy
    split at h
    · exact Option.noConfusion h
    rename_i fs0 s4 hrec
    simp only [Option.some.injEq, Prod.mk.injEq] at h
    obtain ⟨h1, _⟩ := h
    subst h1
    obtain ⟨hlen, hall⟩ := ih _ _ _ hrec
    refine ⟨by simp [hlen], ?_⟩
    intro f hf
    rcases List.mem_cons.mp hf with hf | hf
    · subst hf
      push_neg at hdur hdx hdy
      exact ⟨(by omega : 0 < dur), (by omega : dur < 5000),
        hdx.1, hdx.2, hdy.1, hdy.2⟩
    · exact hall f hf

/-- C10: `Animation::Load` succeeds only if the decoded person-type code is one
of {0, 8, 16, 17, 18, 19, 20}, the frame count is at least 1, and every frame
has `0 < duration < 5000`, `-100 ≤ dx ≤ 100` and `-100 ≤ dy ≤ 100`; an ANIM
block violating any of these bounds (including a zero-frame block) fails. -/
theorem C10_animation_bounds
    (animBegin animLast version size : Nat) (s : List Nat)
    (a : AnimationObj) (rest : List Nat)
    (h : Animation.Load animBegin animLast version size s = some (a, rest)) :
    (∃ pt s1, getU8 s = some (pt, s1) ∧ pt ∈ [0, 8, 16, 17, 18, 19, 20])
  ∧ 1 ≤ a.frames.length
  ∧ ∀ f ∈ a.frames, 0 < f.duration ∧ f.duration < 5000 ∧
      -100 ≤ f.dx ∧ f.dx ≤ 100 ∧ -100 ≤ f.dy ∧ f.dy ≤ 100 := by
  unfold Animation.Load at h
  split at h
  · exact Option.noConfusion h
  split at h
  · exact Option.noConfusion h
  rename_i pt s1 hpt
  split at h
  · exact Option.noConfusion h
  rename_i person hperson
  split at h
  · exact Option.noConfusion h
  rename_i at2 s2 _
  split at h
  · exact Option.noConfusion h
  split at h
  · exact Option.noConfusion h
  rename_i fc s3 _
  split at h
  · exact Option.noConfusion h
  rename_i hsz
  split at h
  · exact Option.noConfusion h
  rename_i hfc
  split at h
  · exact Option.noConfusion h
  rename_i frames s4 hframes
  simp only [Option.some.injEq, Prod.mk.injEq] at h
  obtain ⟨h1, _⟩ := h
  subst h1
  obtain ⟨hlen, hall⟩ := loadFrames_some _ _ _ _ hframes
  refine ⟨⟨pt, s1, hpt, ?_⟩, ?_, hall⟩
  · -- DecodePersonType pt succeeded, so pt is one of the accepted codes
    unfold DecodePersonType at hperson
    split_ifs at hperson <;> simp_all
  · simp only [hlen]
    omega

/-- Witness for C10: a one-frame guest animation block. -/
theorem C10_animation_bounds_witness :
    (∃ pt s1, getU8 [8, 1, 0, 1, 0, 10, 0, 0, 0, 0, 0] = some (pt, s1)
        ∧ pt ∈ [0, 8, 16, 17, 18, 19, 20])
  ∧ 1 ≤ (AnimationObj.mk .guest 1 [⟨10, 0, 0⟩]).frames.length
  ∧ ∀ f ∈ (AnimationObj.mk .guest 1 [⟨10, 0, 0⟩]).frames,
      0 < f.duration ∧ f.duration < 5000 ∧
      -100 ≤ f.dx ∧ f.dx ≤ 100 ∧ -100 ≤ f.dy ∧ f.dy ≤ 100 :=
  C10_animation_bounds 0 10 4 11 [8, 1, 0, 1, 0, 10, 0, 0, 0, 0, 0]
    ⟨.guest, 1, [⟨10, 0, 0⟩]⟩ [] rfl

/-- C4: A SURF block decodes successfully only if its version is 6, its size
is the exact expected size, and the 16-bit ground-type code is one of
{16, 17, 18, 19, 20, 32, 48, 49}; any other code (for example 99) makes
`LoadSURF` fail. -/
theorem C4_surf_ground_types
    (version size : Nat) (sprites : ImageMap) (store : SpriteStorage) (s : List Nat) :
    (∀ st' rest, LoadSURF version size sprites store s = (st', some rest) →
      version = 6 ∧ size = 2 + 2 + 2 + 4 * NUM_SLOPE_SPRITES
      ∧ ∃ gt s1, getU16 s = some (gt, s1) ∧ gt ∈ [16, 17, 18, 19, 20, 32, 48, 49])
  ∧ (∀ s1, getU16 s = some (99, s1) →
      (LoadSURF version size sprites store s).2 = none) := by
  constructor
  · intro st' rest h
    unfold LoadSURF at h
    split at h
    · simp at h
    rename_i hvs
    push_neg at hvs
    refine ⟨hvs.1, hvs.2, ?_⟩
    split at h
    · simp at h
    rename_i gt s1 hgt
    refine ⟨gt, s1, hgt, ?_⟩
    split at h
    · simp at h
    rename_i ty hty
    unfold decodeGroundType at hty
    split_ifs at hty <;> simp_all
  · intro s1 h99
    unfold LoadSURF
    split
    · rfl
    rw [h99]
    simp [decodeGroundType]

/-- Witness for C4: a valid ground type (16) parses, and the payload with
code 99 fails. -/
theorem C4_surf_ground_types_witness :
    (6 = 6 ∧ 98 = 2 + 2 + 2 + 4 * NUM_SLOPE_SPRITES
      ∧ ∃ gt s1, getU16 surfOkPayload = some (gt, s1)
        ∧ gt ∈ [16, 17, 18, 19, 20, 32, 48, 49])
  ∧ (LoadSURF 6 98 (fun _ => none) emptyStore surfBadPayload).2 = none := by
  constructor
  · exact (C4_surf_ground_types 6 98 (fun _ => none) emptyStore surfOkPayload).1
      (LoadSURF 6 98 (fun _ => none) emptyStore surfOkPayload).1 [] rfl
  · exact (C4_surf_ground_types 6 98 (fun _ => none) emptyStore surfBadPayload).2
      ([64, 0, 0, 0] ++ List.replicate 92 0)
      (show getU16 surfBadPayload = some (99, [64, 0, 0, 0] ++ List.replicate 92 0) from rfl)

/-- C8: A PATH block decodes successfully only if the version is 3, the size
is exact, and the low 15 bits of the 16-bit type code are one of
{4, 8, 12, 16} (wood, tiled, asphalt, concrete respectively); on success the
path's status is queue-path exactly when the high bit (0x8000) is set, else
normal-path. -/
theorem C8_path_type_and_status
    (pathCount version size : Nat) (sprites : ImageMap) (store : SpriteStorage)
    (s : List Nat) (st' : SpriteStorage) (rest : List Nat)
    (h : LoadPATH pathCount version size sprites store s = (st', some rest)) :
    version = 3 ∧ size = 2 + 2 + 2 + 4 * pathCount
  ∧ ∃ ty s1, getU16 s = some (ty, s1) ∧ ty % 32768 ∈ [4, 8, 12, 16]
    ∧ ∃ pt, decodePathType (ty % 32768) = some pt
      ∧ (ty % 32768 = 4 → pt = .wood) ∧ (ty % 32768 = 8 → pt = .tiled)
      ∧ (ty % 32768 = 12 → pt = .asphalt) ∧ (ty % 32768 = 16 → pt = .concrete)
      ∧ (st'.pathSprites pt).status
          = (if 32768 ≤ ty then .queuePath else .normalPath) := by
  unfold LoadPATH at h
  split at h
  · simp at h
  rename_i hvs
  push_neg at hvs
  refine ⟨hvs.1, hvs.2, ?_⟩
  split at h
  · simp at h
  rename_i ty s1 hty
  refine ⟨ty, s1, hty, ?_⟩
  split at h
  · simp at h
  rename_i pt hpt
  refine ⟨?_, pt, hpt, ?_, ?_, ?_, ?_, ?_⟩
  · unfold decodePathType at hpt
    split_ifs at hpt <;> simp_all
  · intro h4; rw [h4] at hpt; simp [decodePathType] at hpt; simp [hpt]
  · intro h8; rw [h8] at hpt; simp [decodePathType] at hpt; simp [hpt]
  · intro h12; rw [h12] at hpt; simp [decodePathType] at hpt; simp [hpt]
  · intro h16; rw [h16] at hpt; simp [decodePathType] at hpt; simp [hpt]
  · split at h
    · simp at h
    rename_i width s2 _
    split at h
    · simp at h
    rename_i s3 _
    split at h
    · simp at h
    rename_i ss hss
    unfold seqThen at h
    split at h
    · simp at h
    rename_i st1 r1 hseq
    simp only [Prod.mk.injEq, Option.some.injEq] at h
    obtain ⟨h1, _⟩ := h
    subst h1
    simp

/-- Witness for C8: the queue-wood payload loads with queue-path status. -/
theorem C8_path_type_and_status_witness :
    3 = 3 ∧ 10 = 2 + 2 + 2 + 4 * 1
  ∧ ∃ ty s1, getU16 pathQueuePayload = some (ty, s1) ∧ ty % 32768 ∈ [4, 8, 12, 16]
    ∧ ∃ pt, decodePathType (ty % 32768) = some pt
      ∧ (ty % 32768 = 4 → pt = .wood) ∧ (ty % 32768 = 8 → pt = .tiled)
      ∧ (ty % 32768 = 12 → pt = .asphalt) ∧ (ty % 32768 = 16 → pt = .concrete)
      ∧ (((LoadPATH 1 3 10 (fun _ => none) emptyStore pathQueuePayload).1.pathSprites pt).status
          = (if 32768 ≤ ty then .queuePath else .normalPath)) :=
  C8_path_type_and_status 1 3 10 (fun _ => none) emptyStore pathQueuePayload
    (LoadPATH 1 3 10 (fun _ => none) emptyStore pathQueuePayload).1 [] rfl

/-- C9: Every sprite-set block keyed by a tile width (SURF, TSEL, PATH, PDEC,
TCOR, FUND, PLAT, SUPP, BDIR) decodes only if the declared tile width is 64,
because the sprite store lookup returns the absent store for every other
width. -/
theorem C9_width_64_only
    (version size pathCount sspCount : Nat) (sprites : ImageMap)
    (store : SpriteStorage) (s : List Nat) :
    (∀ w, w ≠ 64 → ∀ st, GetSpriteStore w st = none)
  ∧ (∀ st' r, LoadSURF version size sprites store s = (st', some r) → u16At s 2 = some 64)
  ∧ (∀ st' r, LoadTSEL version size sprites store s = (st', some r) → u16At s 0 = some 64)
  ∧ (∀ st' r, LoadPATH pathCount version size sprites store s = (st', some r) → u16At s 2 = some 64)
  ∧ (∀ st' r, LoadPDEC version size sprites store s = (st', some r) → u16At s 0 = some 64)
  ∧ (∀ st' r, LoadTCOR version size sprites store s = (st', some r) → u16At s 0 = some 64)
  ∧ (∀ st' r, LoadFUND version size sprites store s = (st', some r) → u16At s 2 = some 64)
  ∧ (∀ st' r, LoadPLAT version size sprites store s = (st', some r) → u16At s 0 = some 64)
  ∧ (∀ st' r, LoadSUPP sspCount version size sprites store s = (st', some r) → u16At s 2 = some 64)
  ∧ (∀ st' r, LoadBDIR version size sprites store s = (st', some r) → u16At s 0 = some 64) := by
  refine ⟨?_, ?_, ?_, ?_, ?_, ?_, ?_, ?_, ?_, ?_⟩
  · intro w hw st
    unfold GetSpriteStore
    simp [hw]
  · -- SURF: width is the second u16 field
    intro st' r h
    unfold LoadSURF at h
    split at h
    · simp at h
    split at h
    · simp at h
    rename_i gt s1 hgt
    split at h
    · simp at h
    split at h
    · simp at h
    rename_i width s2 hw
    split at h
    · simp at h
    split at h
    · simp at h
    rename_i ss hss
    unfold GetSpriteStore at hss
    split at hss
    · rename_i h64
      subst h64
      rw [u16At_drop (getU16_some hgt).1]
      exact (getU16_some hw).2.1
    · exact Option.noConfusion hss
  · -- TSEL: width is the first u16 field
    intro st' r h
    unfold LoadTSEL at h
    split at h
    · simp at h
    split at h
    · simp at h
    rename_i width s1 hw
    split at h
    · simp at h
    split at h
    · simp at h
    rename_i ss hss
    unfold GetSpriteStore at hss
    split at hss
    · rename_i h64
      subst h64
      exact (getU16_some hw).2.1
    · exact Option.noConfusion hss
  · -- PATH: width is the second u16 field
    intro st' r h
    unfold LoadPATH at h
    split at h
    · simp at h
    split at h
    · simp at h
    rename_i ty s1 hty
    split at h
    · simp at h
    split at h
    · simp at h
    rename_i width s2 hw
    split at h
    · simp at h
    split at h
    · simp at h
    rename_i ss hss
    unfold GetSpriteStore at hss
    split at hss
    · rename_i h64
      subst h64
      rw [u16At_drop (getU16_some hty).1]
      exact (getU16_some hw).2.1
    · exact Option.noConfusion hss
  · -- PDEC: width is the first u16 field
    intro st' r h
    unfold LoadPDEC at h
    split at h
    · simp at h
    split at h
    · simp at h
    rename_i width s1 hw
    split at h
    · simp at h
    rename_i ss hss
    unfold GetSpriteStore at hss
    split at hss
    · rename_i h64
      subst h64
      exact (getU16_some hw).2.1
    · exact Option.noConfusion hss
  · -- TCOR: width is the first u16 field
    intro st' r h
    unfold LoadTCOR at h
    split at h
    · simp at h
    split at h
    · simp at h
    rename_i width s1 hw
    split at h
    · simp at h
    split at h
    · simp at h
    rename_i ss hss
    unfold GetSpriteStore at hss
    split at hss
    · rename_i h64
      subst h64
      exact (getU16_some hw).2.1
    · exact Option.noConfusion hss
  · -- FUND: width is the second u16 field
    intro st' r h
    unfold LoadFUND at h
    split at h
    · simp at h
    split at h
    · simp at h
    rename_i tp s1 htp
    split at h
    · simp at h
    split at h
    · simp at h
    rename_i width s2 hw
    split at h
    · simp at h
    split at h
    · simp at h
    rename_i ss hss
    unfold GetSpriteStore at hss
    split at hss
    · rename_i h64
      subst h64
      rw [u16At_drop (getU16_some htp).1]
      exact (getU16_some hw).2.1
    · exact Option.noConfusion hss
  · -- PLAT: width is the first u16 field
    intro st' r h
    unfold LoadPLAT at h
    split at h
    · simp at h
    split at h
    · simp at h
    rename_i width s1 hw
    split at h
    · simp at h
    split at h
    · simp at h
    rename_i ty s3 _
    split at h
    · simp at h
    split at h
    · simp at h
    rename_i ss hss
    unfold GetSpriteStore at hss
    split at hss
    · rename_i h64
      subst h64
      exact (getU16_some hw).2.1
    · exact Option.noConfusion hss
  · -- SUPP: width is the second u16 field
    intro st' r h
    unfold LoadSUPP at h
    split at h
    · simp at h
    split at h
    · simp at h
    rename_i ty s1 hty
    split at h
    · simp at h
    split at h
    · simp at h
    rename_i width s2 hw
    split at h
    · simp at h
    split at h
    · simp at h
    rename_i ss hss
    unfold GetSpriteStore at hss
    split at hss
    · rename_i h64
      subst h64
      rw [u16At_drop (getU16_some hty).1]
      exact (getU16_some hw).2.1
    · exact Option.noConfusion hss
  · -- BDIR: width is the first u16 field
    intro st' r h
    unfold LoadBDIR at h
    split at h
    · simp at h
    split at h
    · simp at h
    rename_i width s1 hw
    split at h
    · simp at h
    rename_i ss hss
    unfold GetSpriteStore at hss
    split at hss
    · rename_i h64
      subst h64
      exact (getU16_some hw).2.1
    · exact Option.noConfusion hss

/-- Witness for C9: width 32 yields the absent store, and the successful SURF
payload indeed declares width 64. -/
theorem C9_width_64_only_witness :
    GetSpriteStore 32 emptyStore = none ∧ u16At surfOkPayload 2 = some 64 :=
  ⟨(C9_width_64_only 6 98 0 0 (fun _ => none) emptyStore surfOkPayload).1
      32 (by decide) emptyStore,
   (C9_width_64_only 6 98 0 0 (fun _ => none) emptyStore surfOkPayload).2.1
      (LoadSURF 6 98 (fun _ => none) emptyStore surfOkPayload).1 [] rfl⟩

/-- Master invariant of the inner translations loop: on success it consumes
exactly `trs` bytes, decreases `length` by exactly `trs`, keeps `used_size`
within the backing buffer, and the declared language sub-record lengths
account for `trs` exactly. -/
theorem trsLoop_spec (li : List Nat → Option Nat) :
    ∀ (fuel trs len used : Nat) (langs : Nat → Option (List Nat)) (s : List Nat)
      (len' used' : Nat) (langs' : Nat → Option (List Nat)) (s' : List Nat),
      trsLoop li fuel trs len used langs s = some (len', used', langs', s') →
      trs ≤ len →
      len' = len - trs ∧ s' = s.drop trs ∧ trs ≤ s.length ∧
      (used ≤ 65536 → used' ≤ 65536) ∧ specTrsAccount fuel trs s = some s' := by
  intro fuel
  induction fuel with
  | zero =>
    intro trs len used langs s len' used' langs' s' h _
    simp [trsLoop] at h
  | succ fuel ih =>
    intro trs len used langs s len' used' langs' s' h htl
    unfold trsLoop at h
    split at h
    · -- trs = 0: the loop exits, nothing consumed
      rename_i htrs
      subst htrs
      simp only [Option.some.injEq, Prod.mk.injEq] at h
      obtain ⟨e1, e2, e3, e4⟩ := h
      subst e1 e2 e4
      exact ⟨by omega, by simp, by omega, fun hu => by omega, by simp [specTrsAccount]⟩
    rename_i htrs
    split at h
    · exact Option.noConfusion h
    rename_i hlen3
    split at h
    · exact Option.noConfusion h
    rename_i tr s1 htr
    split at h
    · exact Option.noConfusion h
    rename_i lang s2 hlang
    split at h
    · exact Option.noConfusion h
    rename_i hnotlt
    split at h
    · exact Option.noConfusion h
    rename_i hsp
    split at h
    · exact Option.noConfusion h
    rename_i usedL langName s3 hname
    -- facts about the stream consumed so far
    obtain ⟨hs1, _, _, hslen⟩ := getU16_some htr
    obtain ⟨hs2, hs1len⟩ := getU8_some hlang
    obtain ⟨_, _, hlanglen, _, hs3, _⟩ := ReadUtf8Text_some hname
    split at h
    · -- known language: the text is appended to the backing buffer
      rename_i idx hidx
      split at h
      · exact Option.noConfusion h
      rename_i used2 text2 s4 htext
      obtain ⟨hused2, hcap2, htextlen, _, hs4, _⟩ := ReadUtf8Text_some htext
      obtain ⟨e1, e2, e3, e4, e5⟩ := ih _ _ _ _ _ _ _ _ _ h (by omega)
      have hs4' : s4 = s.drop tr := by
        subst hs4 hs3 hs2 hs1
        simp only [List.drop_drop]
        congr 1
        omega
      have hlens : s1.length = s.length - 2 := by subst hs1; simp
      have hlens2 : s2.length = s.length - 3 := by subst hs2 hs1; simp [List.drop_drop]
      have hlens3 : s3.length = s2.length - lang := by subst hs3; simp
      have hlens4 : s4.length = s3.length - (tr - (lang + 2 + 1)) := by subst hs4; simp
      refine ⟨by omega, ?_, by omega, fun _ => e4 (by omega), ?_⟩
      · rw [e2, hs4', List.drop_drop]
        congr 1
        omega
      · simp only [specTrsAccount, htr, hlang]
        rw [if_neg htrs, if_neg hnotlt, if_neg (by omega : ¬tr < 3)]
        unfold skipBytes
        rw [if_pos (by omega : tr - 3 ≤ s2.length)]
        have : s2.drop (tr - 3) = s4 := by
          rw [hs4', hs2, hs1]
          simp only [List.drop_drop]
          congr 1
          omega
        rw [this]
        exact e5
    · -- unknown language: the text is read into the dummy buffer
      split at h
      · exact Option.noConfusion h
      rename_i used2 text2 s4 htext
      obtain ⟨_, _, htextlen, _, hs4, _⟩ := ReadUtf8Text_some htext
      obtain ⟨e1, e2, e3, e4, e5⟩ := ih _ _ _ _ _ _ _ _ _ h (by omega)
      have hs4' : s4 = s.drop tr := by
        subst hs4 hs3 hs2 hs1
        simp only [List.drop_drop]
        congr 1
        omega
      have hlens : s1.length = s.length - 2 := by subst hs1; simp
      have hlens2 : s2.length = s.length - 3 := by subst hs2 hs1; simp [List.drop_drop]
      have hlens3 : s3.length = s2.length - lang := by subst hs3; simp
      have hlens4 : s4.length = s3.length - (tr - (lang + 2 + 1)) := by subst hs4; simp
      refine ⟨by omega, ?_, by omega, e4, ?_⟩
      · rw [e2, hs4', List.drop_drop]
        congr 1
        omega
      · simp only [specTrsAccount, htr, hlang]
        rw [if_neg htrs, if_neg hnotlt, if_neg (by omega : ¬tr < 3)]
        unfold skipBytes
        rw [if_pos (by omega : tr - 3 ≤ s2.length)]
        have : s2.drop (tr - 3) = s4 := by
          rw [hs4', hs2, hs1]
          simp only [List.drop_drop]
          congr 1
          omega
        rw [this]
        exact e5

/-- Master invariant of the outer string-records loop: on success it consumes
exactly `len` bytes, keeps `used_size` within the backing buffer and the
number of strings within `MAX_NUM_TEXT_STRINGS`, and the declared record
lengths account for `len` exactly. -/
theorem strLoop_spec (li : List Nat → Option Nat) :
    ∀ (fuel len used : Nat) (acc : List TextString) (s : List Nat)
      (strs : List TextString) (used2 : Nat) (s' : List Nat),
      strLoop li fuel len used acc s = some (strs, used2, s') →
      s' = s.drop len ∧ len ≤ s.length ∧
      (used ≤ 65536 → used2 ≤ 65536) ∧
      (acc.length ≤ 512 → strs.length ≤ 512) ∧
      specStrAccount fuel len s = true := by
  intro fuel
  induction fuel with
  | zero =>
    intro len used acc s strs used2 s' h
    simp [strLoop] at h
  | succ fuel ih =>
    intro len used acc s strs used2 s' h
    unfold strLoop at h
    split at h
    · -- len = 0: the loop exits, nothing consumed
      rename_i hlen
      subst hlen
      simp only [Option.some.injEq, Prod.mk.injEq] at h
      obtain ⟨e1, e2, e3⟩ := h
      subst e1 e2 e3
      exact ⟨by simp, by omega, fun hu => hu, fun ha => ha, by simp [specStrAccount]⟩
    rename_i hlen
    split at h
    · exact Option.noConfusion h
    rename_i hmax
    split at h
    · exact Option.noConfusion h
    rename_i hlen3
    split at h
    · exact Option.noConfusion h
    rename_i str s1 hstr
    split at h
    · exact Option.noConfusion h
    rename_i ident s2 hident
    split at h
    · exact Option.noConfusion h
    rename_i hfit
    split at h
    · exact Option.noConfusion h
    rename_i hsp
    split at h
    · exact Option.noConfusion h
    rename_i used1 nameBytes s3 hname
    split at h
    · exact Option.noConfusion h
    rename_i len2 used2' langs s4 hloop
    -- facts about the stream consumed so far
    obtain ⟨hs1, _, _, hslen⟩ := getU16_some hstr
    obtain ⟨hs2, hs1len⟩ := getU8_some hident
    obtain ⟨hused1, hcap1, hidlen, _, hs3, _⟩ := ReadUtf8Text_some hname
    obtain ⟨f1, f2, f3, f4, f5⟩ := trsLoop_spec li _ _ _ _ _ _ _ _ _ _ hloop (by omega)
    obtain ⟨e1, e2, e3, e4, e5⟩ := ih _ _ _ _ _ _ _ h
    have hlens1 : s1.length = s.length - 2 := by subst hs1; simp
    have hlens2 : s2.length = s.length - 3 := by subst hs2 hs1; simp [List.drop_drop]
    have hlens3 : s3.length = s2.length - ident := by subst hs3; simp
    have hs4' : s4 = s.drop str := by
      rw [f2, hs3, hs2, hs1]
      simp only [List.drop_drop]
      congr 1
      omega
    have hlens4 : s4.length = s.length - str := by rw [hs4']; simp
    refine ⟨?_, by omega, ?_, ?_, ?_⟩
    · rw [e1, hs4', List.drop_drop]
      congr 1
      omega
    · intro _
      refine e3 (f4 ?_)
      omega
    · intro hacc
      refine e4 ?_
      simp only [List.length_append, List.length_cons, List.length_nil]
      unfold MAX_NUM_TEXT_STRINGS at hmax
      omega
    · have hskip : skipBytes ident s2 = some s3 := by
        unfold skipBytes
        rw [if_pos (by omega : ident ≤ s2.length), hs3]
      have htrsfuel : str - (ident + 3) = str - (ident + 2 + 1) := by omega
      simp only [specStrAccount, hstr, hident, hskip, htrsfuel, if_neg hlen, if_neg hfit,
        if_neg (by omega : ¬str < ident + 3), f5]
      rw [show len - str = len2 from by omega]
      exact e5

/-- C2: `TextData::Load` succeeds only if the declared sub-record lengths
account for the block's declared size exactly — each string record's declared
length (3-byte header included) and each nested language sub-record's declared
length sum to their parent's declared length with zero slack; a block whose
lengths do not sum exactly fails to decode rather than being silently
truncated. -/
theorem C2_text_exact_accounting
    (li : List Nat → Option Nat) (version size : Nat) (s : List Nat)
    (strs : List TextString) (used : Nat) (rest : List Nat)
    (h : TextData.Load li version size s = some (strs, used, rest)) :
    specTextExactAccounting size s = true ∧ rest = s.drop size ∧ size ≤ s.length := by
  unfold TextData.Load at h
  split at h
  · exact Option.noConfusion h
  obtain ⟨e1, e2, _, _, e5⟩ := strLoop_spec li _ _ _ _ _ _ _ _ h
  exact ⟨e5, e1, e2⟩

/-- Witness for C2: the one-record TEXT payload decodes and its declared
lengths account for its 13 bytes exactly. -/
theorem C2_text_exact_accounting_witness :
    specTextExactAccounting 13 exTextPayload = true
  ∧ [] = exTextPayload.drop 13 ∧ 13 ≤ exTextPayload.length :=
  C2_text_exact_accounting exLang 2 13 exTextPayload
    [⟨[65, 0], fun j => if j = 0 then some [72, 0] else none⟩] 4 [] rfl

/-- C7: `TextData::Load` enforces the hard limits of the TEXT decoder: a
successful decode never holds more than `MAX_NUM_TEXT_STRINGS` (512) strings
nor more than 64 KiB of decoded text bytes; a block that would exceed either
bound fails. -/
theorem C7_text_hard_limits
    (li : List Nat → Option Nat) (version size : Nat) (s : List Nat)
    (strs : List TextString) (used : Nat) (rest : List Nat)
    (h : TextData.Load li version size s = some (strs, used, rest)) :
    strs.length ≤ MAX_NUM_TEXT_STRINGS ∧ used ≤ 64 * 1024 := by
  unfold TextData.Load at h
  split at h
  · exact Option.noConfusion h
  obtain ⟨_, _, e3, e4, _⟩ := strLoop_spec li _ _ _ _ _ _ _ _ h
  exact ⟨e4 (by simp), e3 (by omega)⟩

/-- Witness for C7 at the concrete one-record TEXT payload. -/
theorem C7_text_hard_limits_witness :
    ([⟨[65, 0], fun j => if j = 0 then some [72, 0] else none⟩] :
      List TextString).length ≤ MAX_NUM_TEXT_STRINGS ∧ 4 ≤ 64 * 1024 :=
  C7_text_hard_limits exLang 2 13 exTextPayload
    [⟨[65, 0], fun j => if j = 0 then some [72, 0] else none⟩] 4 [] rfl

theorem getBlob_append {l t : List Nat} {n : Nat} (h : l.length = n) :
    getBlob n (l ++ t) = some (l, t) := by
  unfold getBlob
  rw [if_pos (by simp [← h])]
  rw [List.take_left' h, List.drop_left' h]

theorem getU32_u32le (v : Nat) (t : List Nat) :
    getU32 (u32le v ++ t) = some (v % 4294967296, t) := by
  simp only [u32le, List.cons_append, List.nil_append, getU32, Option.some.injEq,
    Prod.mk.injEq, and_true]
  omega

theorem skipBytes_exact {payload rest : List Nat} {n : Nat} (h : payload.length = n) :
    skipBytes n (payload ++ rest) = some rest := by
  unfold skipBytes
  rw [if_pos (by simp [← h]), List.drop_left' h]

theorem readBlockHeader_append {tag : List Nat} (hlen : tag.length = 4)
    (a b : Nat) (t : List Nat) :
    readBlockHeader (tag ++ u32le a ++ u32le b ++ t)
      = some (tag, a % 4294967296, b % 4294967296, t) := by
  simp only [readBlockHeader, List.append_assoc, getBlob_append hlen, getU32_u32le]

/-- C6: A block whose 4-character tag is not among the dispatcher's recognized
tags is skipped over exactly its declared payload length and the loop
continues with the next block header; an unknown tag is never by itself fatal
to the container load.  (The `fprintf` log message is an I/O side effect
outside the embedding.) -/
theorem C6_unknown_tag_skipped
    (P : Params) (fuel : Nat) (st : MgrState) (sprites : ImageMap) (texts : TextMap)
    (n : Nat) (tag : List Nat) (version size : Nat) (payload rest : List Nat)
    (hlen : tag.length = 4) (hunk : tag ∉ recognizedTags)
    (hsz : size < 4294967296) (hpay : payload.length = size) :
    runLoadAux P (fuel + 1) st sprites texts n
        (tag ++ u32le version ++ u32le size ++ (payload ++ rest))
      = runLoadAux P fuel st sprites texts (n + 1) rest := by
  simp only [recognizedTags, List.mem_cons, List.not_mem_nil, or_false, not_or] at hunk
  obtain ⟨hINFO, hPXL8, hPX32, hSURF, hTSEL, hPATH, hPDEC, hTCOR, hFENC, hFUND,
    hPLAT, hSUPP, hBDIR, hGCHK, hGBOR, hGSLI, hGSCL, hGSLP, hMENU, hANIM, hANSP,
    hPRSG, hTEXT, hSHOP, hFSET, hTIMA, hSCNY, hRIEE, hFGTR, hTRCK, hRCST, hCSPL,
    hCARS⟩ := hunk
  have hmem : ¬tag ∈ unmodeledTags := by
    simp only [unmodeledTags, List.mem_cons, List.not_mem_nil, or_false, not_or]
    exact ⟨hFENC, hGCHK, hGBOR, hGSLI, hGSCL, hGSLP, hMENU, hANSP, hPRSG, hSHOP,
      hFSET, hTIMA, hSCNY, hRIEE, hFGTR, hTRCK, hRCST, hCSPL, hCARS⟩
  simp only [runLoadAux, readBlockHeader_append hlen, if_neg hINFO,
    if_neg (show ¬(tag = tag8PXL ∨ tag = tag32PX) from not_or.mpr ⟨hPXL8, hPX32⟩),
    if_neg hSURF, if_neg hTSEL, if_neg hPATH, if_neg hPDEC, if_neg hTCOR,
    if_neg hFUND, if_neg hPLAT, if_neg hSUPP, if_neg hBDIR, if_neg hANIM,
    if_neg hTEXT, if_neg hmem, Nat.mod_eq_of_lt hsz, skipBytes_exact hpay]

/-- Witness for C6: the unknown tag `"ZZZZ"` with a 2-byte payload is skipped
and the run continues at the following (empty) stream. -/
theorem C6_unknown_tag_skipped_witness :
    runLoadAux exParams 2 initMgr (fun _ => none) (fun _ => none) 5
        ([90, 90, 90, 90] ++ u32le 1 ++ u32le 2 ++ ([5, 6] ++ []))
      = runLoadAux exParams 1 initMgr (fun _ => none) (fun _ => none) 6 [] :=
  C6_unknown_tag_skipped exParams 1 initMgr (fun _ => none) (fun _ => none) 5
    [90, 90, 90, 90] 1 2 [5, 6] [] rfl (by decide) (by decide) rfl

/-- Counterexample for C5 as stated: `SpriteManager::Load` on `exStream`
fails at block 2 (a SURF block), yet the shared sprite store afterwards holds
sprite 1 at surface slot 0 — data written by the *failing* block 2 before its
failure — contradicting "the shared stores contain … nothing from block k". -/
theorem C5_counterexample_partial_publish :
    (SpriteManager.Load exParams initMgr exStream).2
        = .err "Surface block loading failed."
  ∧ initMgr.store.surface .grass0 0 = none
  ∧ (SpriteManager.Load exParams initMgr exStream).1.store.surface .grass0 0
        = some 1 :=
  ⟨rfl, rfl, rfl⟩

/-- C5 (amended): when `SpriteManager::Load` errors at block k, no rollback
happens — the run up to the failing block proceeds from exactly the state left
by blocks 1..k-1 (successful blocks continue the loop on the updated state),
and a failing TEXT or ANIM block publishes nothing (the state is returned
unchanged); but an in-place sprite-set handler such as SURF returns the store
*including its partial writes* when it fails. -/
theorem C5_commit_semantics
    (P : Params) (fuel : Nat) (st : MgrState) (sprites : ImageMap) (texts : TextMap)
    (n : Nat) (s : List Nat) (tag : List Nat) (version size : Nat) (rest : List Nat)
    (hh : readBlockHeader s = some (tag, version, size, rest)) :
    (tag = tagTEXT → TextData.Load P.langIndex version size rest = none →
      runLoadAux P (fuel + 1) st sprites texts n s
        = (st, .err "Text block failed to load."))
  ∧ (tag = tagANIM → Animation.Load P.animBegin P.animLast version size rest = none →
      runLoadAux P (fuel + 1) st sprites texts n s
        = (st, .err "Animation failed to load."))
  ∧ (∀ store' r, tag = tagSURF →
      LoadSURF version size sprites st.store rest = (store', some r) →
      runLoadAux P (fuel + 1) st sprites texts n s
        = runLoadAux P fuel { st with store := store' } sprites texts (n + 1) r)
  ∧ (∀ store', tag = tagSURF →
      LoadSURF version size sprites st.store rest = (store', none) →
      runLoadAux P (fuel + 1) st sprites texts n s
        = ({ st with store := store' }, .err "Surface block loading failed.")) := by
  refine ⟨?_, ?_, ?_, ?_⟩
  · intro htag hfail
    subst htag
    simp only [runLoadAux, hh, hfail]
    norm_num [tagTEXT, tagINFO, tag8PXL, tag32PX, tagSURF, tagTSEL, tagPATH,
      tagPDEC, tagTCOR, tagFUND, tagPLAT, tagSUPP, tagBDIR, tagANIM]
  · intro htag hfail
    subst htag
    simp only [runLoadAux, hh, hfail]
    norm_num [tagANIM, tagINFO, tag8PXL, tag32PX, tagSURF, tagTSEL, tagPATH,
      tagPDEC, tagTCOR, tagFUND, tagPLAT, tagSUPP, tagBDIR]
  · intro store' r htag hload
    subst htag
    simp only [runLoadAux, hh, hload]
    norm_num [tagSURF, tagINFO, tag8PXL, tag32PX]
  · intro store' htag hload
    subst htag
    simp only [runLoadAux, hh, hload]
    norm_num [tagSURF, tagINFO, tag8PXL, tag32PX]

/-- Witness for C5 (amended): a failing TEXT block leaves the manager state
exactly unchanged. -/
theorem C5_commit_semantics_witness :
    runLoadAux exParams 1 initMgr (fun _ => none) (fun _ => none) 1 textFailBlock
      = (initMgr, .err "Text block failed to load.") :=
  (C5_commit_semantics exParams 0 initMgr (fun _ => none) (fun _ => none) 1
    textFailBlock tagTEXT 2 1 [0] rfl).1 rfl rfl

end FreeRCT
